import Mathlib

/-!
Shallow embedding of `src/main.py` (class `DynamoDBHelper`), a thin client
over a remote key-value table service.  The remote service itself is not part
of the repository; its call shapes are modelled from the specification
(sections 3, 4.1 and 6), while every method of `DynamoDBHelper` is translated
from the source.  Remote failures are injected through an explicit `fault`
argument carried by each call: `none` means the backing dependency is healthy,
`some e` means the remote call raises exception `e` before doing anything.
-/

/-- Tagged attribute value, per the backing store's attribute-value encoding
(string / number / binary). -/
inductive AttrValue where
  | S (s : String)
  | N (n : String)
  | B (b : String)
  deriving DecidableEq, Repr

/-- An item is a mapping from attribute name to a tagged attribute value. -/
abbrev Item := List (String × AttrValue)

/-- Look up an attribute by name in an item. -/
def getAttr (i : Item) (a : String) : Option AttrValue :=
  (i.find? (fun p => p.1 == a)).map (fun p => p.2)

/-- Set an attribute of an item to a value (used to build concrete update
denotations). -/
def setAttr (i : Item) (a : String) (v : AttrValue) : Item :=
  i.filter (fun p => !(p.1 == a)) ++ [(a, v)]

/-- Exceptions a remote call can surface: the backing service's client-error
class `ClientError` (carrying an error code), or any other exception type. -/
inductive PyErr where
  | clientError (code : String) (msg : String)
  | otherError (msg : String)
  deriving DecidableEq, Repr

/-- One global-secondary-index creation request recorded against a table. -/
structure GSICreate where
  indexName : String
  keySchema : List (String × String)
  projectionType : String
  readCapacityUnits : Nat
  writeCapacityUnits : Nat
  deriving DecidableEq, Repr

/-- Remote-side description of one table: key schema (attribute name, key
type), attribute definitions (attribute name, attribute type), provisioned
throughput, table status, stored items and secondary indexes. -/
structure TableDesc where
  keySchema : List (String × String)
  attributeDefinitions : List (String × String)
  readCapacityUnits : Nat
  writeCapacityUnits : Nat
  status : String
  items : List Item
  gsis : List GSICreate
  deriving DecidableEq, Repr

/-- Name of the table's HASH key attribute, per its key schema. -/
def TableDesc.hashKey (t : TableDesc) : Option String :=
  (t.keySchema.find? (fun p => p.2 == "HASH")).map (fun p => p.1)

/-- Modelled from the spec: the remote service state, a mapping from table
name to table description (the backing store is a black box owned by the
remote service; spec section 6). -/
def DynaState : Type := String → Option TableDesc

/-- Look up a table by name in the remote state. -/
def DynaState.lookup (s : DynaState) (n : String) : Option TableDesc := s n

/-- Replace (or add) the table bound to a name in the remote state. -/
def DynaState.setTable (s : DynaState) (n : String) (t : TableDesc) : DynaState :=
  fun m => if m = n then some t else s m

/-- Modelled from the spec: create-table(name, key schema, attribute type,
throughput); fails with the specific conflict code when the table name is
already in use, otherwise registers the table in CREATING status. -/
def remoteCreateTable (fault : Option PyErr) (s : DynaState) (name : String)
    (keySchema attrDefs : List (String × String)) (rc wc : Nat) :
    Except PyErr DynaState :=
  match fault with
  | some e => .error e
  | none =>
    match s.lookup name with
    | some _ => .error (.clientError "ResourceInUseException" "Table already exists")
    | none => .ok (s.setTable name ⟨keySchema, attrDefs, rc, wc, "CREATING", [], []⟩)

/-- Modelled from the spec: the waiter attached to the create-table response
blocks until the table reports the ACTIVE (ready) state. -/
def remoteWaitUntilExists (s : DynaState) (name : String) : DynaState :=
  match s.lookup name with
  | none => s
  | some t => s.setTable name { t with status := "ACTIVE" }

/-- Modelled from the spec: get-item(table, key) returns the addressed item,
or nothing when absent; a missing table is a client error. -/
def remoteGetItem (fault : Option PyErr) (s : DynaState) (table keyName : String)
    (keyVal : AttrValue) : Except PyErr (Option Item) :=
  match fault with
  | some e => .error e
  | none =>
    match s.lookup table with
    | none => .error (.clientError "ResourceNotFoundException" "Requested resource not found")
    | some t => .ok (t.items.find? (fun i => getAttr i keyName == some keyVal))

/-- Write one item into a table with full overwrite semantics: any item
sharing the new item's HASH-key value is replaced. -/
def TableDesc.putItem (t : TableDesc) (i : Item) : TableDesc :=
  match t.hashKey with
  | none => t
  | some k =>
      { t with items := t.items.filter (fun j => !(getAttr j k == getAttr i k)) ++ [i] }

/-- Modelled from the spec: put-item(table, item) writes one item
unconditionally (full overwrite semantics). -/
def remotePutItem (fault : Option PyErr) (s : DynaState) (table : String)
    (i : Item) : Except PyErr DynaState :=
  match fault with
  | some e => .error e
  | none =>
    match s.lookup table with
    | none => .error (.clientError "ResourceNotFoundException" "Requested resource not found")
    | some t => .ok (s.setTable table (t.putItem i))

/-- Modelled from the spec: an update expression together with its
substituted attribute values is passed through unmodified and interpreted by
the remote service; its denotation is modelled by the set of attribute names
the expression modifies and the transformation it applies to the item. -/
structure UpdateSem where
  touched : List String
  applyTo : Item → Item

/-- Modelled from the spec: update-item(table, key, update expression,
substitution values) applies a partial update to the addressed item (created
from the key when absent) and returns the post-update values of the modified
attributes (ReturnValues UPDATED_NEW). -/
def remoteUpdateItem (fault : Option PyErr) (s : DynaState) (table keyName : String)
    (keyVal : AttrValue) (u : UpdateSem) : Except PyErr (DynaState × Option Item) :=
  match fault with
  | some e => .error e
  | none =>
    match s.lookup table with
    | none => .error (.clientError "ResourceNotFoundException" "Requested resource not found")
    | some t =>
      let base : Item :=
        match t.items.find? (fun i => getAttr i keyName == some keyVal) with
        | some i => i
        | none => [(keyName, keyVal)]
      let newIt := u.applyTo base
      let t2 : TableDesc := { t with
        items := t.items.filter (fun j => !(getAttr j keyName == some keyVal)) ++ [newIt] }
      .ok (s.setTable table t2, some (newIt.filter (fun p => u.touched.contains p.1)))

/-- Modelled from the spec: delete-item(table, key) removes the addressed
item. -/
def remoteDeleteItem (fault : Option PyErr) (s : DynaState) (table keyName : String)
    (keyVal : AttrValue) : Except PyErr DynaState :=
  match fault with
  | some e => .error e
  | none =>
    match s.lookup table with
    | none => .error (.clientError "ResourceNotFoundException" "Requested resource not found")
    | some t =>
        .ok (s.setTable table
          { t with items := t.items.filter (fun j => !(getAttr j keyName == some keyVal)) })

/-- Modelled from the spec: scan(table) returns the item list (single page
assumed). -/
def remoteScan (fault : Option PyErr) (s : DynaState) (table : String) :
    Except PyErr (List Item) :=
  match fault with
  | some e => .error e
  | none =>
    match s.lookup table with
    | none => .error (.clientError "ResourceNotFoundException" "Requested resource not found")
    | some t => .ok t.items

/-- Modelled from the spec: query(table, key-condition expression, values)
with the condition `key = value` returns the items whose named key attribute
equals the given value. -/
def remoteQuery (fault : Option PyErr) (s : DynaState) (table keyName : String)
    (keyVal : AttrValue) : Except PyErr (List Item) :=
  match fault with
  | some e => .error e
  | none =>
    match s.lookup table with
    | none => .error (.clientError "ResourceNotFoundException" "Requested resource not found")
    | some t => .ok (t.items.filter (fun i => getAttr i keyName == some keyVal))

/-- Modelled from the spec: batch-write(table, item list) submits every item
through the store's batched-write mechanism; chunking and retry are delegated
to the dependency, so the model folds single-item writes over the list. -/
def remoteBatchWrite (fault : Option PyErr) (s : DynaState) (table : String)
    (items : List Item) : Except PyErr DynaState :=
  match fault with
  | some e => .error e
  | none =>
    match s.lookup table with
    | none => .error (.clientError "ResourceNotFoundException" "Requested resource not found")
    | some t => .ok (s.setTable table (items.foldl TableDesc.putItem t))

/-- Modelled from the spec: update-table(table, add index definition) records
the new global secondary index and its attribute definitions against the
table. -/
def remoteUpdateTable (fault : Option PyErr) (s : DynaState) (table : String)
    (attrDefs : List (String × String)) (g : GSICreate) : Except PyErr DynaState :=
  match fault with
  | some e => .error e
  | none =>
    match s.lookup table with
    | none => .error (.clientError "ResourceNotFoundException" "Requested resource not found")
    | some t =>
        .ok (s.setTable table
          { t with attributeDefinitions := t.attributeDefinitions ++ attrDefs,
                   gsis := t.gsis ++ [g] })

/-- Table-identity fields of the client, set in `__init__`
(src/main.py lines 22 to 26). -/
structure DynamoDBHelper where
  table_name : String
  primary_key : String
  primary_key_type : String
  read_capacity : Nat
  write_capacity : Nat
  deriving DecidableEq, Repr

/-- Translation of `DynamoDBHelper._create_table` (src/main.py lines 30 to
52): issue create-table from the stored fields and wait until the table
exists; only a `ClientError` is caught, and it is re-raised unless its code
is `ResourceInUseException`, in which case the conflict is only logged. -/
def DynamoDBHelper._create_table (h : DynamoDBHelper) (fault : Option PyErr)
    (s : DynaState) : Except PyErr DynaState :=
  match remoteCreateTable fault s h.table_name
      [(h.primary_key, "HASH")] [(h.primary_key, h.primary_key_type)]
      h.read_capacity h.write_capacity with
  | .ok s2 => .ok (remoteWaitUntilExists s2 h.table_name)
  | .error (.clientError code msg) =>
      if code ≠ "ResourceInUseException" then .error (.clientError code msg)
      else .ok s
  | .error e => .error e

/-- Translation of `DynamoDBHelper.__init__` (src/main.py lines 10 to 28):
store the five table-identity fields (the source defaults are type "S" and
capacities 5) and ensure the table exists via `_create_table`. -/
def DynamoDBHelper.init (fault : Option PyErr) (s : DynaState)
    (table_name primary_key primary_key_type : String)
    (read_capacity write_capacity : Nat) :
    Except PyErr (DynamoDBHelper × DynaState) :=
  let h : DynamoDBHelper :=
    ⟨table_name, primary_key, primary_key_type, read_capacity, write_capacity⟩
  match h._create_table fault s with
  | .ok s2 => .ok (h, s2)
  | .error e => .error e

/-- Translation of `put_item` (src/main.py lines 64 to 78): unconditional
write; a `ClientError` is logged by `_handle_error` and swallowed. -/
def DynamoDBHelper.put_item (h : DynamoDBHelper) (fault : Option PyErr)
    (s : DynaState) (item : Item) :
    Except PyErr (DynamoDBHelper × DynaState × Unit) :=
  match remotePutItem fault s h.table_name item with
  | .ok s2 => .ok (h, s2, ())
  | .error (.clientError _ _) => .ok (h, s, ())
  | .error e => .error e

/-- Translation of `get_item` (src/main.py lines 80 to 98): read one item by
primary-key value; a `ClientError` is logged and `None` is returned. -/
def DynamoDBHelper.get_item (h : DynamoDBHelper) (fault : Option PyErr)
    (s : DynaState) (key_value : AttrValue) :
    Except PyErr (DynamoDBHelper × DynaState × Option Item) :=
  match remoteGetItem fault s h.table_name h.primary_key key_value with
  | .ok r => .ok (h, s, r)
  | .error (.clientError _ _) => .ok (h, s, none)
  | .error e => .error e

/-- Translation of `update_item` (src/main.py lines 100 to 124): partial
update with ReturnValues UPDATED_NEW; a `ClientError` is logged and `None`
is returned. -/
def DynamoDBHelper.update_item (h : DynamoDBHelper) (fault : Option PyErr)
    (s : DynaState) (key_value : AttrValue) (u : UpdateSem) :
    Except PyErr (DynamoDBHelper × DynaState × Option Item) :=
  match remoteUpdateItem fault s h.table_name h.primary_key key_value u with
  | .ok (s2, attrs) => .ok (h, s2, attrs)
  | .error (.clientError _ _) => .ok (h, s, none)
  | .error e => .error e

/-- Translation of `delete_item` (src/main.py lines 126 to 140): remove one
item by primary key; a `ClientError` is logged and swallowed. -/
def DynamoDBHelper.delete_item (h : DynamoDBHelper) (fault : Option PyErr)
    (s : DynaState) (key_value : AttrValue) :
    Except PyErr (DynamoDBHelper × DynaState × Unit) :=
  match remoteDeleteItem fault s h.table_name h.primary_key key_value with
  | .ok s2 => .ok (h, s2, ())
  | .error (.clientError _ _) => .ok (h, s, ())
  | .error e => .error e

/-- Translation of `scan_table` (src/main.py lines 142 to 154): full-table
scan; a `ClientError` is logged and `None` is returned. -/
def DynamoDBHelper.scan_table (h : DynamoDBHelper) (fault : Option PyErr)
    (s : DynaState) :
    Except PyErr (DynamoDBHelper × DynaState × Option (List Item)) :=
  match remoteScan fault s h.table_name with
  | .ok items => .ok (h, s, some items)
  | .error (.clientError _ _) => .ok (h, s, none)
  | .error e => .error e

/-- Translation of `query_table` (src/main.py lines 156 to 175): query with
the key condition `primary_key = :value`; a `ClientError` is logged and
`None` is returned. -/
def DynamoDBHelper.query_table (h : DynamoDBHelper) (fault : Option PyErr)
    (s : DynaState) (key_value : AttrValue) :
    Except PyErr (DynamoDBHelper × DynaState × Option (List Item)) :=
  match remoteQuery fault s h.table_name h.primary_key key_value with
  | .ok items => .ok (h, s, some items)
  | .error (.clientError _ _) => .ok (h, s, none)
  | .error e => .error e

/-- Translation of `batch_write_items` (src/main.py lines 177 to 190): put
every item through the store's batch writer; a `ClientError` is logged and
swallowed. -/
def DynamoDBHelper.batch_write_items (h : DynamoDBHelper) (fault : Option PyErr)
    (s : DynaState) (items : List Item) :
    Except PyErr (DynamoDBHelper × DynaState × Unit) :=
  match remoteBatchWrite fault s h.table_name items with
  | .ok s2 => .ok (h, s2, ())
  | .error (.clientError _ _) => .ok (h, s, ())
  | .error e => .error e

/-- Translation of `create_global_secondary_index` (src/main.py lines 192 to
217): update-table adding an index whose key schema lists every given
attribute as a HASH key, with the client's own capacities as the index
throughput; a `ClientError` is logged and swallowed. -/
def DynamoDBHelper.create_global_secondary_index (h : DynamoDBHelper)
    (fault : Option PyErr) (s : DynaState) (index_name : String)
    (key_schema : List (String × String)) (projection_type : String) :
    Except PyErr (DynamoDBHelper × DynaState × Unit) :=
  match remoteUpdateTable fault s h.table_name
      (key_schema.map (fun p => (p.1, p.2)))
      ⟨index_name, key_schema.map (fun p => (p.1, "HASH")), projection_type,
       h.read_capacity, h.write_capacity⟩ with
  | .ok s2 => .ok (h, s2, ())
  | .error (.clientError _ _) => .ok (h, s, ())
  | .error e => .error e

/-- Translation of the default argument `projection_type='ALL'` of
`create_global_secondary_index` (src/main.py line 193). -/
def DynamoDBHelper.create_global_secondary_index_dflt (h : DynamoDBHelper)
    (fault : Option PyErr) (s : DynaState) (index_name : String)
    (key_schema : List (String × String)) :
    Except PyErr (DynamoDBHelper × DynaState × Unit) :=
  h.create_global_secondary_index fault s index_name key_schema "ALL"

/-- Return value of an operation, as the Python methods return it. -/
inductive PyRes where
  | noneVal
  | optItem (r : Option Item)
  | optItems (r : Option (List Item))

/-- One call to any of the eight public operation methods of the client. -/
inductive Op where
  | put_item (item : Item)
  | get_item (key_value : AttrValue)
  | update_item (key_value : AttrValue) (u : UpdateSem)
  | delete_item (key_value : AttrValue)
  | scan_table
  | query_table (key_value : AttrValue)
  | batch_write_items (items : List Item)
  | create_global_secondary_index (index_name : String)
      (key_schema : List (String × String)) (projection_type : String)

/-- Dispatch one operation call on the client. -/
def DynamoDBHelper.runOp (h : DynamoDBHelper) (fault : Option PyErr)
    (s : DynaState) : Op → Except PyErr (DynamoDBHelper × DynaState × PyRes)
  | .put_item item =>
      (h.put_item fault s item).map (fun r => (r.1, r.2.1, .noneVal))
  | .get_item v =>
      (h.get_item fault s v).map (fun r => (r.1, r.2.1, .optItem r.2.2))
  | .update_item v u =>
      (h.update_item fault s v u).map (fun r => (r.1, r.2.1, .optItem r.2.2))
  | .delete_item v =>
      (h.delete_item fault s v).map (fun r => (r.1, r.2.1, .noneVal))
  | .scan_table =>
      (h.scan_table fault s).map (fun r => (r.1, r.2.1, .optItems r.2.2))
  | .query_table v =>
      (h.query_table fault s v).map (fun r => (r.1, r.2.1, .optItems r.2.2))
  | .batch_write_items items =>
      (h.batch_write_items fault s items).map (fun r => (r.1, r.2.1, .noneVal))
  | .create_global_secondary_index idx ks pt =>
      (h.create_global_secondary_index fault s idx ks pt).map
        (fun r => (r.1, r.2.1, .noneVal))

/-! Helper lemmas about the remote state and list operations. -/

theorem lookup_setTable_self (s : DynaState) (n : String) (t : TableDesc) :
    (s.setTable n t).lookup n = some t := by
  simp [DynaState.lookup, DynaState.setTable]

theorem setTable_setTable_self (s : DynaState) (n : String) (t t' : TableDesc) :
    (s.setTable n t).setTable n t' = s.setTable n t' := by
  funext m
  by_cases hm : m = n <;> simp [DynaState.setTable, hm]

theorem find?_filter_not {α : Type} (p : α → Bool) (l : List α) :
    (l.filter (fun a => !p a)).find? p = none := by
  rw [List.find?_filter, List.find?_eq_none]
  intro x hx
  cases h : p x <;> simp [h]

theorem filter_idem {α : Type} (p : α → Bool) (l : List α) :
    (l.filter p).filter p = l.filter p := by
  simp [List.filter_filter]

theorem find?_filter_of_imp {α : Type} (p q : α → Bool) (l : List α)
    (h : ∀ x, p x = true → q x = true) :
    (l.filter q).find? p = l.find? p := by
  induction l with
  | nil => rfl
  | cons x l ih =>
    cases hq : q x with
    | true =>
      cases hp : p x with
      | true => simp [List.filter_cons, hq, List.find?_cons, hp]
      | false => simp [List.filter_cons, hq, List.find?_cons, hp, ih]
    | false =>
      have hp : p x = false := by
        cases hpx : p x with
        | false => rfl
        | true => rw [h x hpx] at hq; cases hq
      simp [List.filter_cons, hq, List.find?_cons, hp, ih]

theorem getAttr_setAttr_ne (i : Item) (a b : String) (v : AttrValue)
    (hba : b ≠ a) :
    getAttr (setAttr i a v) b = getAttr i b := by
  unfold getAttr setAttr
  rw [List.find?_append, find?_filter_of_imp (fun p => p.1 == b) (fun p => !(p.1 == a)) i ?imp]
  case imp =>
    intro x hx
    have hxb : x.1 = b := by simpa using hx
    simp [hxb, hba]
  cases hf : i.find? (fun p => p.1 == b) with
  | some w => simp
  | none => simp [List.find?_cons, Ne.symm hba]

theorem setAttr_setAttr (i : Item) (a : String) (v : AttrValue) :
    setAttr (setAttr i a v) a v = setAttr i a v := by
  unfold setAttr
  simp [List.filter_append, List.filter_filter]

/-! Concrete values used by the witnesses. -/

/-- Concrete client, as in the example usage block of `src/main.py`. -/
def wHelper : DynamoDBHelper := ⟨"MyTable", "ID", "S", 5, 5⟩

/-- Concrete remote table description for the witnesses. -/
def wTable : TableDesc := ⟨[("ID", "HASH")], [("ID", "S")], 5, 5, "ACTIVE", [], []⟩

/-- Concrete stored item. -/
def wItem : Item := [("ID", AttrValue.S "1"), ("Name", AttrValue.S "Example")]

/-- Concrete table holding one item. -/
def wTableFull : TableDesc := { wTable with items := [wItem] }

/-- Remote state with one empty table. -/
def wState : DynaState := fun n => if n = "MyTable" then some wTable else none

/-- Remote state with one table holding one item. -/
def wStateFull : DynaState := fun n => if n = "MyTable" then some wTableFull else none

/-- Remote state with no tables. -/
def wEmpty : DynaState := fun _ => none

/-! Claim theorems. -/

/-- C1: during construction, a remote creation failure with the specific
conflict code (table already exists) is swallowed and construction succeeds,
while a creation failure with any other client-error code propagates. -/
theorem init_conflict_ok_other_client_error_raises
    (s : DynaState) (t : TableDesc) (tn pk pkt : String) (rc wc : Nat)
    (c m : String)
    (htab : s.lookup tn = some t) (hc : c ≠ "ResourceInUseException") :
    DynamoDBHelper.init none s tn pk pkt rc wc = .ok (⟨tn, pk, pkt, rc, wc⟩, s) ∧
    DynamoDBHelper.init (some (.clientError c m)) s tn pk pkt rc wc =
      .error (.clientError c m) := by
  constructor
  · simp [DynamoDBHelper.init, DynamoDBHelper._create_table, remoteCreateTable, htab]
  · simp [DynamoDBHelper.init, DynamoDBHelper._create_table, remoteCreateTable, hc]

/-- Witness for C1 at a concrete existing table and a concrete non-conflict
client error. -/
theorem init_conflict_ok_other_client_error_raises_witness :
    wState.lookup "MyTable" = some wTable ∧
    "ValidationException" ≠ "ResourceInUseException" ∧
    (DynamoDBHelper.init none wState "MyTable" "ID" "S" 5 5 =
        .ok (⟨"MyTable", "ID", "S", 5, 5⟩, wState) ∧
     DynamoDBHelper.init (some (.clientError "ValidationException" "bad"))
        wState "MyTable" "ID" "S" 5 5 =
        .error (.clientError "ValidationException" "bad")) :=
  ⟨rfl, by decide,
   init_conflict_ok_other_client_error_raises wState wTable "MyTable" "ID" "S"
     5 5 "ValidationException" "bad" rfl (by decide)⟩

/-- C2: for every operation of the client and for table creation, an injected
exception that is not the backing service's client-error class is not caught
and propagates, while an injected client error is always caught by the eight
operation methods. -/
theorem only_client_errors_caught (h : DynamoDBHelper) (s : DynaState)
    (op : Op) (msg c m : String) :
    h.runOp (some (.otherError msg)) s op = .error (.otherError msg) ∧
    (∃ r, h.runOp (some (.clientError c m)) s op = .ok r) ∧
    h._create_table (some (.otherError msg)) s = .error (.otherError msg) := by
  refine ⟨?_, ?_, ?_⟩
  · cases op <;>
      simp [DynamoDBHelper.runOp, DynamoDBHelper.put_item, DynamoDBHelper.get_item,
        DynamoDBHelper.update_item, DynamoDBHelper.delete_item, DynamoDBHelper.scan_table,
        DynamoDBHelper.query_table, DynamoDBHelper.batch_write_items,
        DynamoDBHelper.create_global_secondary_index, remotePutItem, remoteGetItem,
        remoteUpdateItem, remoteDeleteItem, remoteScan, remoteQuery, remoteBatchWrite,
        remoteUpdateTable, Except.map]
  · cases op with
    | put_item item =>
        exact ⟨(h, s, .noneVal), by
          simp [DynamoDBHelper.runOp, DynamoDBHelper.put_item, remotePutItem, Except.map]⟩
    | get_item v =>
        exact ⟨(h, s, .optItem none), by
          simp [DynamoDBHelper.runOp, DynamoDBHelper.get_item, remoteGetItem, Except.map]⟩
    | update_item v u =>
        exact ⟨(h, s, .optItem none), by
          simp [DynamoDBHelper.runOp, DynamoDBHelper.update_item, remoteUpdateItem, Except.map]⟩
    | delete_item v =>
        exact ⟨(h, s, .noneVal), by
          simp [DynamoDBHelper.runOp, DynamoDBHelper.delete_item, remoteDeleteItem, Except.map]⟩
    | scan_table =>
        exact ⟨(h, s, .optItems none), by
          simp [DynamoDBHelper.runOp, DynamoDBHelper.scan_table, remoteScan, Except.map]⟩
    | query_table v =>
        exact ⟨(h, s, .optItems none), by
          simp [DynamoDBHelper.runOp, DynamoDBHelper.query_table, remoteQuery, Except.map]⟩
    | batch_write_items items =>
        exact ⟨(h, s, .noneVal), by
          simp [DynamoDBHelper.runOp, DynamoDBHelper.batch_write_items, remoteBatchWrite,
            Except.map]⟩
    | create_global_secondary_index idx ks pt =>
        exact ⟨(h, s, .noneVal), by
          simp [DynamoDBHelper.runOp, DynamoDBHelper.create_global_secondary_index,
            remoteUpdateTable, Except.map]⟩
  · simp [DynamoDBHelper._create_table, remoteCreateTable]

/-- C3: get_item returns the stored item when the key is present, `none` when
the key is absent, and `none` (after logging) when the remote call fails with
a client error; the absent result is the same value `none` in both of the
last two cases. -/
theorem get_item_found_absent_error (h : DynamoDBHelper) (s : DynaState)
    (t : TableDesc) (v : AttrValue) (c m : String)
    (htab : s.lookup h.table_name = some t) :
    (∀ it, t.items.find? (fun i => getAttr i h.primary_key == some v) = some it →
      h.get_item none s v = .ok (h, s, some it)) ∧
    (t.items.find? (fun i => getAttr i h.primary_key == some v) = none →
      h.get_item none s v = .ok (h, s, none)) ∧
    h.get_item (some (.clientError c m)) s v = .ok (h, s, none) := by
  refine ⟨?_, ?_, ?_⟩
  · intro it hit
    simp [DynamoDBHelper.get_item, remoteGetItem, htab, hit]
  · intro hnone
    simp [DynamoDBHelper.get_item, remoteGetItem, htab, hnone]
  · simp [DynamoDBHelper.get_item, remoteGetItem]

/-- Witness for C3 at a concrete one-item table. -/
theorem get_item_found_absent_error_witness :
    wStateFull.lookup wHelper.table_name = some wTableFull ∧
    ((∀ it, wTableFull.items.find?
        (fun i => getAttr i wHelper.primary_key == some (.S "1")) = some it →
      wHelper.get_item none wStateFull (.S "1") = .ok (wHelper, wStateFull, some it)) ∧
     (wTableFull.items.find?
        (fun i => getAttr i wHelper.primary_key == some (.S "1")) = none →
      wHelper.get_item none wStateFull (.S "1") = .ok (wHelper, wStateFull, none)) ∧
     wHelper.get_item (some (.clientError "Throttling" "slow")) wStateFull (.S "1") =
       .ok (wHelper, wStateFull, none)) :=
  ⟨rfl, get_item_found_absent_error wHelper wStateFull wTableFull (.S "1")
    "Throttling" "slow" rfl⟩

/-- C4: construction against an absent table name issues create-table with
the stored table name, key schema, attribute type and throughput hints, and
completes only once the table reports the ACTIVE (ready) state. -/
theorem init_creates_and_waits_active (s : DynaState) (tn pk pkt : String)
    (rc wc : Nat) (habs : s.lookup tn = none) :
    ∃ s2, DynamoDBHelper.init none s tn pk pkt rc wc =
        .ok (⟨tn, pk, pkt, rc, wc⟩, s2) ∧
      s2.lookup tn = some ⟨[(pk, "HASH")], [(pk, pkt)], rc, wc, "ACTIVE", [], []⟩ := by
  refine ⟨(s.setTable tn ⟨[(pk, "HASH")], [(pk, pkt)], rc, wc, "CREATING", [], []⟩).setTable tn
      ⟨[(pk, "HASH")], [(pk, pkt)], rc, wc, "ACTIVE", [], []⟩, ?_, ?_⟩
  · simp [DynamoDBHelper.init, DynamoDBHelper._create_table, remoteCreateTable, habs,
      remoteWaitUntilExists, lookup_setTable_self]
  · exact lookup_setTable_self ..

/-- Witness for C4 starting from the empty remote state. -/
theorem init_creates_and_waits_active_witness :
    wEmpty.lookup "MyTable" = none ∧
    (∃ s2, DynamoDBHelper.init none wEmpty "MyTable" "ID" "S" 5 5 =
        .ok (⟨"MyTable", "ID", "S", 5, 5⟩, s2) ∧
      s2.lookup "MyTable" =
        some ⟨[("ID", "HASH")], [("ID", "S")], 5, 5, "ACTIVE", [], []⟩) :=
  ⟨rfl, init_creates_and_waits_active wEmpty "MyTable" "ID" "S" 5 5 rfl⟩

/-- C5: batch_write_items submits every item of the list through the store's
batched-write mechanism, and an aggregate client-error failure is logged and
swallowed, returning normally without raising. -/
theorem batch_write_submits_and_swallows (h : DynamoDBHelper) (s : DynaState)
    (t : TableDesc) (items : List Item) (c m : String)
    (htab : s.lookup h.table_name = some t) :
    h.batch_write_items none s items =
      .ok (h, s.setTable h.table_name (items.foldl TableDesc.putItem t), ()) ∧
    h.batch_write_items (some (.clientError c m)) s items = .ok (h, s, ()) := by
  constructor <;> simp [DynamoDBHelper.batch_write_items, remoteBatchWrite, htab]

/-- Witness for C5 at a concrete two-item batch. -/
theorem batch_write_submits_and_swallows_witness :
    wState.lookup wHelper.table_name = some wTable ∧
    (wHelper.batch_write_items none wState
        [[("ID", AttrValue.S "2")], [("ID", AttrValue.S "3")]] =
      .ok (wHelper, wState.setTable wHelper.table_name
        ([[("ID", AttrValue.S "2")], [("ID", AttrValue.S "3")]].foldl
          TableDesc.putItem wTable), ()) ∧
     wHelper.batch_write_items (some (.clientError "ProvisionedThroughputExceededException" "slow"))
        wState [[("ID", AttrValue.S "2")], [("ID", AttrValue.S "3")]] =
      .ok (wHelper, wState, ())) :=
  ⟨rfl, batch_write_submits_and_swallows wHelper wState wTable
    [[("ID", AttrValue.S "2")], [("ID", AttrValue.S "3")]]
    "ProvisionedThroughputExceededException" "slow" rfl⟩

/-- C6: with a healthy backing dependency, put_item of an item followed by
get_item with the same primary-key value returns exactly the written item. -/
theorem put_then_get_roundtrip (h : DynamoDBHelper) (s : DynaState)
    (t : TableDesc) (item : Item) (v : AttrValue)
    (htab : s.lookup h.table_name = some t)
    (hkey : t.hashKey = some h.primary_key)
    (hitem : getAttr item h.primary_key = some v) :
    ∃ s2, h.put_item none s item = .ok (h, s2, ()) ∧
      h.get_item none s2 v = .ok (h, s2, some item) := by
  refine ⟨s.setTable h.table_name (t.putItem item), ?_, ?_⟩
  · simp [DynamoDBHelper.put_item, remotePutItem, htab]
  · simp only [DynamoDBHelper.get_item, remoteGetItem, lookup_setTable_self]
    unfold TableDesc.putItem
    rw [hkey]
    simp only
    rw [hitem, List.find?_append, find?_filter_not]
    simp [hitem]

/-- Witness for C6: the example-usage item round-trips through the empty
example table. -/
theorem put_then_get_roundtrip_witness :
    wState.lookup wHelper.table_name = some wTable ∧
    wTable.hashKey = some wHelper.primary_key ∧
    getAttr wItem wHelper.primary_key = some (.S "1") ∧
    (∃ s2, wHelper.put_item none wState wItem = .ok (wHelper, s2, ()) ∧
      wHelper.get_item none s2 (.S "1") = .ok (wHelper, s2, some wItem)) :=
  ⟨rfl, rfl, rfl,
   put_then_get_roundtrip wHelper wState wTable wItem (.S "1") rfl rfl rfl⟩

/-- C7: with a healthy backing dependency, delete_item for a key followed by
get_item on the same key returns the absent result. -/
theorem delete_then_get_absent (h : DynamoDBHelper) (s : DynaState)
    (t : TableDesc) (v : AttrValue)
    (htab : s.lookup h.table_name = some t) :
    ∃ s2, h.delete_item none s v = .ok (h, s2, ()) ∧
      h.get_item none s2 v = .ok (h, s2, none) := by
  refine ⟨s.setTable h.table_name
      { t with items := t.items.filter (fun j => !(getAttr j h.primary_key == some v)) },
    ?_, ?_⟩
  · simp [DynamoDBHelper.delete_item, remoteDeleteItem, htab]
  · simp [DynamoDBHelper.get_item, remoteGetItem, lookup_setTable_self, find?_filter_not]

/-- Witness for C7: deleting key "1" from the one-item example table makes a
subsequent get return the absent result. -/
theorem delete_then_get_absent_witness :
    wStateFull.lookup wHelper.table_name = some wTableFull ∧
    (∃ s2, wHelper.delete_item none wStateFull (.S "1") = .ok (wHelper, s2, ()) ∧
      wHelper.get_item none s2 (.S "1") = .ok (wHelper, s2, none)) :=
  ⟨rfl, delete_then_get_absent wHelper wStateFull wTableFull (.S "1") rfl⟩

/-- Second call of an idempotent update: run against the state the first call
produced, the update stores the same item again and returns the same updated
attribute set. -/
theorem update_item_second_call (h : DynamoDBHelper) (s : DynaState)
    (t : TableDesc) (v : AttrValue) (u : UpdateSem) (base : Item)
    (hbase : getAttr base h.primary_key = some v)
    (hkeyb : getAttr (u.applyTo base) h.primary_key = getAttr base h.primary_key)
    (hidb : u.applyTo (u.applyTo base) = u.applyTo base) :
    h.update_item none
      (s.setTable h.table_name
        { t with items :=
            t.items.filter (fun j => !(getAttr j h.primary_key == some v)) ++
              [u.applyTo base] })
      v u =
    .ok (h,
      s.setTable h.table_name
        { t with items :=
            t.items.filter (fun j => !(getAttr j h.primary_key == some v)) ++
              [u.applyTo base] },
      some ((u.applyTo base).filter (fun q => u.touched.contains q.1))) := by
  have hnew : getAttr (u.applyTo base) h.primary_key = some v := by rw [hkeyb, hbase]
  simp only [DynamoDBHelper.update_item, remoteUpdateItem, lookup_setTable_self,
    List.find?_append, find?_filter_not, Option.none_or, List.find?_cons, hnew,
    beq_self_eq_true, List.filter_append, filter_idem, hidb]
  simp [hnew, setTable_setTable_self]

/-- C8: for every update denotation that does not modify the primary-key
attribute and is idempotent, applying update_item twice with the same key and
denotation yields the same final state as applying it once, and both calls
return the same updated attribute set. -/
theorem update_item_idempotent (h : DynamoDBHelper) (s : DynaState)
    (t : TableDesc) (v : AttrValue) (u : UpdateSem)
    (htab : s.lookup h.table_name = some t)
    (hkey : ∀ i, getAttr (u.applyTo i) h.primary_key = getAttr i h.primary_key)
    (hid : ∀ i, u.applyTo (u.applyTo i) = u.applyTo i) :
    ∃ s1 r, h.update_item none s v u = .ok (h, s1, r) ∧
      h.update_item none s1 v u = .ok (h, s1, r) := by
  cases hf : t.items.find? (fun i => getAttr i h.primary_key == some v) with
  | some b =>
    have hb : getAttr b h.primary_key = some v := by
      have := List.find?_some hf
      simpa using this
    refine ⟨s.setTable h.table_name
        { t with items :=
            t.items.filter (fun j => !(getAttr j h.primary_key == some v)) ++
              [u.applyTo b] },
      some ((u.applyTo b).filter (fun q => u.touched.contains q.1)), ?_, ?_⟩
    · simp only [DynamoDBHelper.update_item, remoteUpdateItem, htab, hf]
    · exact update_item_second_call h s t v u b hb (hkey b) (hid b)
  | none =>
    have hb : getAttr [(h.primary_key, v)] h.primary_key = some v := by
      simp [getAttr]
    refine ⟨s.setTable h.table_name
        { t with items :=
            t.items.filter (fun j => !(getAttr j h.primary_key == some v)) ++
              [u.applyTo [(h.primary_key, v)]] },
      some ((u.applyTo [(h.primary_key, v)]).filter (fun q => u.touched.contains q.1)),
      ?_, ?_⟩
    · simp only [DynamoDBHelper.update_item, remoteUpdateItem, htab, hf]
    · exact update_item_second_call h s t v u [(h.primary_key, v)] hb
        (hkey [(h.primary_key, v)]) (hid [(h.primary_key, v)])

/-- Concrete update denotation: SET Name = "UpdatedValue". -/
def wUpd : UpdateSem := ⟨["Name"], fun i => setAttr i "Name" (AttrValue.S "UpdatedValue")⟩

/-- Witness for C8 at a concrete SET-style update on the example table. -/
theorem update_item_idempotent_witness :
    wStateFull.lookup wHelper.table_name = some wTableFull ∧
    (∀ i, getAttr (wUpd.applyTo i) wHelper.primary_key = getAttr i wHelper.primary_key) ∧
    (∀ i, wUpd.applyTo (wUpd.applyTo i) = wUpd.applyTo i) ∧
    (∃ s1 r, wHelper.update_item none wStateFull (.S "1") wUpd = .ok (wHelper, s1, r) ∧
      wHelper.update_item none s1 (.S "1") wUpd = .ok (wHelper, s1, r)) :=
  ⟨rfl,
   fun i => getAttr_setAttr_ne i "Name" "ID" (AttrValue.S "UpdatedValue") (by decide),
   fun i => setAttr_setAttr i "Name" (AttrValue.S "UpdatedValue"),
   update_item_idempotent wHelper wStateFull wTableFull (.S "1") wUpd rfl
     (fun i => getAttr_setAttr_ne i "Name" "ID" (AttrValue.S "UpdatedValue") (by decide))
     (fun i => setAttr_setAttr i "Name" (AttrValue.S "UpdatedValue"))⟩

/-- C9: the five table-identity fields are set from the constructor arguments
and every operation leaves the client unchanged. -/
theorem table_identity_immutable (fault : Option PyErr) (s s' : DynaState)
    (tn pk pkt : String) (rc wc : Nat) (h h1 h2 : DynamoDBHelper)
    (s0 s2 : DynaState) (op : Op) (r : PyRes)
    (hinit : DynamoDBHelper.init fault s tn pk pkt rc wc = .ok (h, s0))
    (hop : h1.runOp fault s' op = .ok (h2, s2, r)) :
    (h.table_name = tn ∧ h.primary_key = pk ∧ h.primary_key_type = pkt ∧
     h.read_capacity = rc ∧ h.write_capacity = wc) ∧ h2 = h1 := by
  constructor
  · simp only [DynamoDBHelper.init] at hinit
    split at hinit
    · rw [Except.ok.injEq, Prod.mk.injEq] at hinit
      obtain ⟨hh, -⟩ := hinit
      subst hh
      exact ⟨rfl, rfl, rfl, rfl, rfl⟩
    · simp at hinit
  · cases op <;>
      (simp only [DynamoDBHelper.runOp, DynamoDBHelper.put_item, DynamoDBHelper.get_item,
          DynamoDBHelper.update_item, DynamoDBHelper.delete_item, DynamoDBHelper.scan_table,
          DynamoDBHelper.query_table, DynamoDBHelper.batch_write_items,
          DynamoDBHelper.create_global_secondary_index] at hop
       split at hop <;> simp only [Except.map, Except.ok.injEq, Prod.mk.injEq] at hop <;>
        first
          | exact hop.1.symm
          | cases hop)

/-- Remote state produced by constructing the example client from the empty
remote state. -/
def wCreated : DynaState :=
  (wEmpty.setTable "MyTable"
    ⟨[("ID", "HASH")], [("ID", "S")], 5, 5, "CREATING", [], []⟩).setTable
    "MyTable" ⟨[("ID", "HASH")], [("ID", "S")], 5, 5, "ACTIVE", [], []⟩

/-- Witness for C9: concrete construction and a concrete scan call. -/
theorem table_identity_immutable_witness :
    DynamoDBHelper.init none wEmpty "MyTable" "ID" "S" 5 5 = .ok (wHelper, wCreated) ∧
    wHelper.runOp none wState .scan_table = .ok (wHelper, wState, .optItems (some [])) ∧
    ((wHelper.table_name = "MyTable" ∧ wHelper.primary_key = "ID" ∧
      wHelper.primary_key_type = "S" ∧ wHelper.read_capacity = 5 ∧
      wHelper.write_capacity = 5) ∧ wHelper = wHelper) :=
  ⟨rfl, rfl,
   table_identity_immutable none wEmpty wState "MyTable" "ID" "S" 5 5 wHelper wHelper
     wHelper wCreated wState .scan_table (.optItems (some [])) rfl rfl⟩

/-- C10: create_global_secondary_index issues the table alteration with the
client's own constructor-time capacities as the index throughput, registers
every key_schema attribute as a HASH key, uses projection type ALL when none
is given, and swallows a remote client error, returning normally. -/
theorem create_gsi_request_and_swallow (h : DynamoDBHelper) (s : DynaState)
    (t : TableDesc) (idx : String) (ks : List (String × String)) (pt c m : String)
    (htab : s.lookup h.table_name = some t) :
    (h.create_global_secondary_index none s idx ks pt =
      .ok (h, s.setTable h.table_name
        { t with
          attributeDefinitions := t.attributeDefinitions ++ ks.map (fun p => (p.1, p.2)),
          gsis := t.gsis ++
            [⟨idx, ks.map (fun p => (p.1, "HASH")), pt, h.read_capacity, h.write_capacity⟩] },
        ())) ∧
    h.create_global_secondary_index (some (.clientError c m)) s idx ks pt =
      .ok (h, s, ()) ∧
    h.create_global_secondary_index_dflt none s idx ks =
      h.create_global_secondary_index none s idx ks "ALL" := by
  refine ⟨?_, ?_, rfl⟩
  · simp [DynamoDBHelper.create_global_secondary_index, remoteUpdateTable, htab]
  · simp [DynamoDBHelper.create_global_secondary_index, remoteUpdateTable]

/-- Witness for C10 in the example table with index MyGSI on attribute
Name. -/
theorem create_gsi_request_and_swallow_witness :
    wState.lookup wHelper.table_name = some wTable ∧
    ((wHelper.create_global_secondary_index none wState "MyGSI" [("Name", "S")] "KEYS_ONLY" =
      .ok (wHelper, wState.setTable wHelper.table_name
        { wTable with
          attributeDefinitions :=
            wTable.attributeDefinitions ++ [("Name", "S")].map (fun p => (p.1, p.2)),
          gsis := wTable.gsis ++
            [⟨"MyGSI", [("Name", "S")].map (fun p => (p.1, "HASH")), "KEYS_ONLY",
              wHelper.read_capacity, wHelper.write_capacity⟩] },
        ())) ∧
     wHelper.create_global_secondary_index (some (.clientError "LimitExceededException" "too many"))
        wState "MyGSI" [("Name", "S")] "KEYS_ONLY" = .ok (wHelper, wState, ()) ∧
     wHelper.create_global_secondary_index_dflt none wState "MyGSI" [("Name", "S")] =
       wHelper.create_global_secondary_index none wState "MyGSI" [("Name", "S")] "ALL") :=
  ⟨rfl, create_gsi_request_and_swallow wHelper wState wTable "MyGSI" [("Name", "S")]
    "KEYS_ONLY" "LimitExceededException" "too many" rfl⟩
